import Mathlib

/-
Verification of the FutureTree agentic RAG workflow
(src/ai-service/agents/rag_agent.py, src/ai-service/db/vector_store.py,
src/ai-service/config.py).

Shallow embedding notes:
- Calls into the three external ports (classifier LLM, generator LLM,
  web-search provider, vector database) are modelled by a `Ports` record
  that scripts every external outcome a single run can observe.
- A classifier response is either unparseable JSON (`json.JSONDecodeError`
  in the source) or a parsed JSON object from which the node reads one key
  (`route`, `relevant` or `grounded`); the value under that key is a JSON
  string or some other JSON value (`JsonVal.other`), which can never equal
  a string in the comparisons the source performs.
- SQL floating point similarity scores are modelled with `Rat`; the claims
  concern only order comparisons against the 0.7 threshold, not rounding.
- The database rows carry the cosine distance `embedding <=> :embedding`
  as data, since the vector arithmetic happens in the external database.
-/

namespace FutureTree

/-- JSON value found under the single key that a node reads from a parsed
classifier response: either a JSON string or any other well-formed JSON
value (number, bool, object, ...), which compares unequal to every string. -/
inductive JsonVal where
  | str (s : String)
  | other
deriving DecidableEq, Repr

/-- Outcome of `json.loads` on a classifier response followed by
`result.get(key)`: `malformed` when `json.JSONDecodeError` is raised,
otherwise the (possibly absent) value stored under the key of interest. -/
inductive ClsResp where
  | malformed
  | obj (field : Option JsonVal)
deriving DecidableEq, Repr

/-- User context dict. Only the `industry` key influences workflow control
flow (retrieval filters); the other keys (companySize, currentStage,
primaryGoal) feed prompt text only, which is not modelled. `industry := none`
covers both an absent key and an absent/empty dict entry; the empty string
value is kept distinct because Python truthiness distinguishes it. -/
structure Ctx where
  industry : Option String
deriving DecidableEq, Repr

/-- One row of the `case_studies` table as seen by
`VectorStore.similarity_search`. The four JSON-column fields are carried as
their `json.dumps` serialisation (external data). `dist` is the cosine
distance `embedding <=> :embedding` computed by the database for the query
embedding of the current run. -/
structure CaseRow where
  id : String
  company_name : String
  industry : String
  summary : String
  strategy_type : String
  starting_state : String
  ending_state : String
  timeline : String
  key_actions : String
  outcomes : String
  lessons_learned : String
  dist : Rat
deriving DecidableEq, Repr

/-- One web search hit as returned by the Tavily tool: `r.get("content", "")`
and `r.get("url")` in the source. -/
structure WebHit where
  content : String
  url : Option String
deriving DecidableEq, Repr

/-- A LangChain `Document`: `page_content` plus the metadata dict. Retrieval
documents carry id/company/industry/similarity; web documents carry
url/source = "web_search". Absent metadata keys are `none`. -/
structure Doc where
  content : String
  id : Option String
  company : Option String
  industry : Option String
  similarity : Option Rat
  url : Option String
  source : Option String
deriving DecidableEq, Repr

/-- The `RAGState` TypedDict of the source. `routing_decision` is typed
`str` in Python but can hold any JSON value the classifier returns, hence
`JsonVal` here (initial value is the string ""). -/
structure RAGState where
  question : String
  context : Option Ctx
  documents : List Doc
  generation : Option String
  web_search_needed : Bool
  retry_count : Nat
  max_retries : Nat
  routing_decision : JsonVal
deriving DecidableEq, Repr

/-- Scripted outcomes of every external call one run can make. `gradeResp`
is keyed by the graded document (the grader prompt is a function of the
document content and the fixed question); `genText` and `groundResp` are
keyed by the value of `retry_count` at the moment of the call, which counts
the generation attempts of the run. -/
structure Ports where
  router : ClsResp
  db : List CaseRow
  gradeResp : Doc → ClsResp
  webResult : Option (List WebHit)
  genText : Nat → String
  groundResp : Nat → ClsResp
  directText : String

/-- RAG_CONFIG["retrieval_k"] from config.py. -/
def RAG_CONFIG_retrieval_k : Nat := 5

/-- RAG_CONFIG["similarity_threshold"] from config.py. -/
def RAG_CONFIG_similarity_threshold : Rat := 7/10

/-- Ascending order on the cosine distance column, the ORDER BY key of
`similarity_search`. -/
def byDist (a b : CaseRow) : Prop := a.dist ≤ b.dist

instance : DecidableRel byDist := fun a b => inferInstanceAs (Decidable (a.dist ≤ b.dist))

instance : IsTotal CaseRow byDist := ⟨fun a b => le_total a.dist b.dist⟩

instance : IsTrans CaseRow byDist := ⟨fun _ _ _ h1 h2 => le_trans h1 h2⟩

/-- The WHERE clause of `similarity_search`: similarity strictly above the
threshold AND the optional industry equality. -/
def searchPred (threshold : Rat) (industryFilter : Option String) (r : CaseRow) : Bool :=
  decide ((1 : Rat) - r.dist > threshold) &&
  (match industryFilter with
   | none => true
   | some ind => r.industry == ind)

/-- VectorStore.similarity_search (db/vector_store.py): keep rows whose
similarity `1 - dist` strictly exceeds the threshold and that satisfy the
optional industry equality filter, order ascending by distance, return the
first k. At the one call site in `retrieve` the filter dict is either empty
(passed as None) or exactly the single industry equality. The SQL sort order
on ties is unspecified; a stable sort models it. -/
def similarity_search (rows : List CaseRow) (k : Nat) (threshold : Rat)
    (industryFilter : Option String) : List CaseRow :=
  (List.insertionSort byDist (rows.filter (searchPred threshold industryFilter))).take k

/-- The `_format_case_study` helper: the f-string template of rag_agent.py
with the row fields spliced in (JSON columns already serialised). -/
def formatCaseStudy (r : CaseRow) : String :=
  "\n**" ++ r.company_name ++ "** (" ++ r.industry ++ ")\n\n" ++
  "Summary: " ++ r.summary ++ "\n\n" ++
  "Strategy: " ++ r.strategy_type ++ "\n\n" ++
  "Starting State: " ++ r.starting_state ++ "\n\n" ++
  "Ending State: " ++ r.ending_state ++ "\n\n" ++
  "Timeline: " ++ r.timeline ++ "\n\n" ++
  "Key Actions: " ++ r.key_actions ++ "\n\n" ++
  "Outcomes: " ++ r.outcomes ++ "\n\n" ++
  "Lessons Learned: " ++ r.lessons_learned ++ "\n"

/-- Conversion of a retrieved row to a LangChain Document in `retrieve`. -/
def caseDoc (r : CaseRow) : Doc :=
  { content := formatCaseStudy r
    id := some r.id
    company := some r.company_name
    industry := some r.industry
    similarity := some (1 - r.dist)
    url := none
    source := none }

/-- The industry filter `retrieve` passes to the vector store:
`if context and context.get("industry"): filters["industry"] = ...`.
Python truthiness means a missing context, a missing industry key and an
empty-string industry value all yield no filter. -/
def ctxIndustryFilter : Option Ctx → Option String
  | none => none
  | some c =>
    match c.industry with
    | none => none
    | some ind => if ind = "" then none else some ind

/-- Conversion of a web hit to a LangChain Document in `web_search`. -/
def webDoc (h : WebHit) : Doc :=
  { content := h.content
    id := none
    company := none
    industry := none
    similarity := none
    url := h.url
    source := some "web_search" }

/-- The route label read from the router response:
`result.get("route", "vectorstore")` inside try, `"vectorstore"` on
`json.JSONDecodeError`. -/
def routeVal : ClsResp → JsonVal
  | .malformed => .str "vectorstore"
  | .obj none => .str "vectorstore"
  | .obj (some v) => v

/-- Node `route_question`: stores the (defaulted) route label in
`routing_decision` and touches nothing else. -/
def route_question (p : Ports) (s : RAGState) : RAGState :=
  { s with routing_decision := routeVal p.router }

/-- Node `retrieve`: similarity search over `case_studies` with
k = RAG_CONFIG["retrieval_k"], threshold = RAG_CONFIG["similarity_threshold"]
and the optional industry filter from the user context, then replaces
`documents` with the converted results. -/
def retrieve (p : Ports) (s : RAGState) : RAGState :=
  { s with documents :=
      (similarity_search p.db RAG_CONFIG_retrieval_k
        RAG_CONFIG_similarity_threshold (ctxIndustryFilter s.context)).map caseDoc }

/-- Whether `grade_documents` keeps a document, given the grader response
for it: kept when `result.get("relevant") == "yes"` or when parsing raised
`json.JSONDecodeError` (fail open). -/
def gradeKeep : ClsResp → Bool
  | .malformed => true
  | .obj f => if f = some (JsonVal.str "yes") then true else false

/-- Node `grade_documents`: with no documents, set `web_search_needed` and
return; otherwise keep the documents graded "yes" (or unparseable) in their
original order and set `web_search_needed` iff none survived. -/
def grade_documents (p : Ports) (s : RAGState) : RAGState :=
  if s.documents.isEmpty then
    { s with web_search_needed := true, documents := [] }
  else
    let kept := s.documents.filter (fun d => gradeKeep (p.gradeResp d))
    { s with documents := kept, web_search_needed := kept.isEmpty }

/-- Node `web_search`: on provider success append the converted hits to the
existing documents and clear `web_search_needed`; on any exception return
the state unchanged (the source logs and falls through). -/
def web_search (p : Ports) (s : RAGState) : RAGState :=
  match p.webResult with
  | some hits =>
    { s with documents := s.documents ++ hits.map webDoc, web_search_needed := false }
  | none => s

/-- Node `generate`: sets `generation` to the generator output. The output
text is scripted by the attempt index `retry_count` (the only run-varying
input of the call; prompt wording is not modelled). -/
def generate (p : Ports) (s : RAGState) : RAGState :=
  { s with generation := some (p.genText s.retry_count) }

/-- Node `check_hallucination`: short-circuits when there are no documents
or the generation is falsy (`None` or the empty string); otherwise, when the
parsed verdict is exactly the string "no", increments `retry_count` and
clears `generation`; on any other parsed value or a parse failure, returns
the state unchanged. -/
def check_hallucination (p : Ports) (s : RAGState) : RAGState :=
  if s.documents.isEmpty ∨ s.generation = none ∨ s.generation = some "" then s
  else
    match p.groundResp s.retry_count with
    | .malformed => s
    | .obj f =>
      if f = some (JsonVal.str "no") then
        { s with retry_count := s.retry_count + 1, generation := none }
      else s

/-- Node `direct_answer`: sets `generation` from the chat model, touching
nothing else. -/
def direct_answer (p : Ports) (s : RAGState) : RAGState :=
  { s with generation := some p.directText }

/-- Conditional edge `decide_route`: the stored routing decision compared
against the string literals "direct" and "web_search"; anything else
(including non-string JSON values) goes to "retrieve". -/
def decide_route (s : RAGState) : String :=
  if s.routing_decision = JsonVal.str "direct" then "direct"
  else if s.routing_decision = JsonVal.str "web_search" then "web_search"
  else "retrieve"

/-- Conditional edge `decide_after_grading`. -/
def decide_after_grading (s : RAGState) : String :=
  if s.web_search_needed then "web_search" else "generate"

/-- Conditional edge `decide_after_generation`: retry iff the generation was
cleared and the retry budget is not yet exhausted. -/
def decide_after_generation (s : RAGState) : String :=
  if s.generation = none ∧ s.retry_count < s.max_retries then "retry" else "end"

/-- The generate / check_hallucination cycle of the compiled graph, with a
trace of executed node names appended to `tr`. `fuel` bounds the number of
rounds; every caller passes `max_retries + 1`, which is proved sufficient
(each retry strictly increments `retry_count`, and retries require
`retry_count < max_retries`). -/
def genLoop (p : Ports) : Nat → RAGState → List String → RAGState × List String
  | 0, s, tr => (s, tr)
  | fuel + 1, s, tr =>
    let s1 := check_hallucination p (generate p s)
    let tr1 := tr ++ ["generate", "check_hallucination"]
    if decide_after_generation s1 = "retry" then genLoop p fuel s1 tr1
    else (s1, tr1)

/-- The initial state `RAGAgent.invoke` builds before calling the graph. -/
def initState (question : String) (ctx : Option Ctx) (maxRetries : Nat) : RAGState :=
  { question := question
    context := ctx
    documents := []
    generation := none
    web_search_needed := false
    retry_count := 0
    max_retries := maxRetries
    routing_decision := .str "" }

/-- The compiled workflow applied to the initial state that `RAGAgent.invoke`
builds: entry node `route`, then the conditional edges of `create_rag_graph`.
Returns the terminal state together with the trace of executed node names. -/
def runRAG (p : Ports) (question : String) (ctx : Option Ctx) (maxRetries : Nat) :
    RAGState × List String :=
  let s1 := route_question p (initState question ctx maxRetries)
  if decide_route s1 = "direct" then
    (direct_answer p s1, ["route", "direct_answer"])
  else if decide_route s1 = "web_search" then
    genLoop p (maxRetries + 1) (web_search p s1) ["route", "web_search"]
  else
    let s3 := grade_documents p (retrieve p s1)
    if decide_after_grading s3 = "web_search" then
      genLoop p (maxRetries + 1) (web_search p s3)
        ["route", "retrieve", "grade_documents", "web_search"]
    else
      genLoop p (maxRetries + 1) s3 ["route", "retrieve", "grade_documents"]

/-- The dict `RAGAgent.invoke` returns to the caller. The final graph state
always contains the `generation` key, so `result.get("generation", ...)`
returns the stored value even when it is None; hence `answer` is exactly the
terminal `generation`. Sources are content previews plus metadata. -/
structure InvokeResult where
  answer : Option String
  sources : List (String × Doc)
  route : JsonVal
  retries : Nat
deriving Repr

/-- RAGAgent.invoke: run the graph on the fresh initial state and read off
the result dict. -/
def invoke (p : Ports) (question : String) (ctx : Option Ctx) (maxRetries : Nat) :
    InvokeResult :=
  let g := (runRAG p question ctx maxRetries).1
  { answer := g.generation
    sources := g.documents.map (fun d => (d.content.take 200 ++ "...", d))
    route := g.routing_decision
    retries := g.retry_count }

/-! Helper lemmas: field-preservation facts for each node and invariants of
the generate / verify cycle. -/

theorem check_cases (p : Ports) (s : RAGState) :
    check_hallucination p s = s ∨
    check_hallucination p s =
      { s with retry_count := s.retry_count + 1, generation := none } := by
  unfold check_hallucination
  split
  · exact Or.inl rfl
  · split
    · exact Or.inl rfl
    · split
      · exact Or.inr rfl
      · exact Or.inl rfl

theorem check_max_retries (p : Ports) (s : RAGState) :
    (check_hallucination p s).max_retries = s.max_retries := by
  rcases check_cases p s with h | h <;> rw [h]

theorem check_documents (p : Ports) (s : RAGState) :
    (check_hallucination p s).documents = s.documents := by
  rcases check_cases p s with h | h <;> rw [h]

theorem check_routing (p : Ports) (s : RAGState) :
    (check_hallucination p s).routing_decision = s.routing_decision := by
  rcases check_cases p s with h | h <;> rw [h]

theorem check_retry_ge (p : Ports) (s : RAGState) :
    s.retry_count ≤ (check_hallucination p s).retry_count := by
  rcases check_cases p s with h | h <;> rw [h] <;> simp

theorem check_retry_le (p : Ports) (s : RAGState) :
    (check_hallucination p s).retry_count ≤ s.retry_count + 1 := by
  rcases check_cases p s with h | h <;> rw [h] <;> simp

theorem check_gen_clear (p : Ports) (s : RAGState)
    (hs : s.generation ≠ none)
    (h : (check_hallucination p s).generation = none) :
    check_hallucination p s =
      { s with retry_count := s.retry_count + 1, generation := none } := by
  rcases check_cases p s with hc | hc
  · rw [hc] at h
    exact absurd h hs
  · exact hc

theorem generate_retry (p : Ports) (s : RAGState) :
    (generate p s).retry_count = s.retry_count := rfl

theorem generate_max (p : Ports) (s : RAGState) :
    (generate p s).max_retries = s.max_retries := rfl

theorem generate_gen (p : Ports) (s : RAGState) :
    (generate p s).generation = some (p.genText s.retry_count) := rfl

theorem grade_retry (p : Ports) (s : RAGState) :
    (grade_documents p s).retry_count = s.retry_count := by
  unfold grade_documents
  split <;> rfl

theorem grade_max (p : Ports) (s : RAGState) :
    (grade_documents p s).max_retries = s.max_retries := by
  unfold grade_documents
  split <;> rfl

theorem grade_routing (p : Ports) (s : RAGState) :
    (grade_documents p s).routing_decision = s.routing_decision := by
  unfold grade_documents
  split <;> rfl

theorem web_search_retry (p : Ports) (s : RAGState) :
    (web_search p s).retry_count = s.retry_count := by
  unfold web_search
  split <;> rfl

theorem web_search_max (p : Ports) (s : RAGState) :
    (web_search p s).max_retries = s.max_retries := by
  unfold web_search
  split <;> rfl

theorem web_search_routing (p : Ports) (s : RAGState) :
    (web_search p s).routing_decision = s.routing_decision := by
  unfold web_search
  split <;> rfl

theorem decide_retry_iff (s : RAGState) :
    decide_after_generation s = "retry" ↔
      (s.generation = none ∧ s.retry_count < s.max_retries) := by
  unfold decide_after_generation
  split
  · simp_all
  · simp_all

theorem genLoop_succ (p : Ports) (fuel : Nat) (s : RAGState) (tr : List String) :
    genLoop p (fuel + 1) s tr =
      (if decide_after_generation (check_hallucination p (generate p s)) = "retry"
       then genLoop p fuel (check_hallucination p (generate p s))
         (tr ++ ["generate", "check_hallucination"])
       else (check_hallucination p (generate p s),
         tr ++ ["generate", "check_hallucination"])) := rfl

theorem loop_step_retry (p : Ports) (s : RAGState)
    (h : decide_after_generation (check_hallucination p (generate p s)) = "retry") :
    (check_hallucination p (generate p s)).retry_count = s.retry_count + 1 ∧
    (check_hallucination p (generate p s)).max_retries = s.max_retries ∧
    s.retry_count + 1 < s.max_retries := by
  have hiff := (decide_retry_iff _).mp h
  have hgen : (generate p s).generation ≠ none := by
    rw [generate_gen]
    exact Option.some_ne_none _
  have hclear := check_gen_clear p (generate p s) hgen hiff.1
  rw [hclear] at hiff ⊢
  refine ⟨?_, ?_, ?_⟩
  · rw [generate_retry]
  · rw [generate_max]
  · have h2 := hiff.2
    simp only [generate_retry, generate_max] at h2
    exact h2

theorem genLoop_preserved (p : Ports) :
    ∀ (fuel : Nat) (s : RAGState) (tr : List String),
      (genLoop p fuel s tr).1.max_retries = s.max_retries ∧
      (genLoop p fuel s tr).1.documents = s.documents ∧
      (genLoop p fuel s tr).1.routing_decision = s.routing_decision := by
  intro fuel
  induction fuel with
  | zero => intro s tr; exact ⟨rfl, rfl, rfl⟩
  | succ fuel ih =>
    intro s tr
    rw [genLoop_succ]
    split
    · rcases ih (check_hallucination p (generate p s))
        (tr ++ ["generate", "check_hallucination"]) with ⟨h1, h2, h3⟩
      refine ⟨?_, ?_, ?_⟩
      · rw [h1, check_max_retries]; rfl
      · rw [h2, check_documents]; rfl
      · rw [h3, check_routing]; rfl
    · refine ⟨?_, ?_, ?_⟩
      · rw [check_max_retries]; rfl
      · rw [check_documents]; rfl
      · rw [check_routing]; rfl

theorem genLoop_trace_mono (p : Ports) :
    ∀ (fuel : Nat) (s : RAGState) (tr : List String) (x : String),
      x ∈ tr → x ∈ (genLoop p fuel s tr).2 := by
  intro fuel
  induction fuel with
  | zero => intro s tr x hx; exact hx
  | succ fuel ih =>
    intro s tr x hx
    rw [genLoop_succ]
    split
    · exact ih _ _ x (List.mem_append_left _ hx)
    · exact List.mem_append_left _ hx

theorem genLoop_retry_ge (p : Ports) :
    ∀ (fuel : Nat) (s : RAGState) (tr : List String),
      s.retry_count ≤ (genLoop p fuel s tr).1.retry_count := by
  intro fuel
  induction fuel with
  | zero => intro s tr; exact le_rfl
  | succ fuel ih =>
    intro s tr
    rw [genLoop_succ]
    split
    · calc s.retry_count
          ≤ (check_hallucination p (generate p s)).retry_count := by
            rw [← generate_retry p s]; exact check_retry_ge _ _
        _ ≤ _ := ih _ _
    · rw [← generate_retry p s]
      exact check_retry_ge _ _

theorem genLoop_retry_bound (p : Ports) :
    ∀ (fuel : Nat) (s : RAGState) (tr : List String),
      (genLoop p fuel s tr).1.retry_count ≤ max s.max_retries (s.retry_count + 1) := by
  intro fuel
  induction fuel with
  | zero =>
    intro s tr
    show s.retry_count ≤ max s.max_retries (s.retry_count + 1)
    omega
  | succ fuel ih =>
    intro s tr
    rw [genLoop_succ]
    split
    · rename_i hd
      rcases loop_step_retry p s hd with ⟨h1, h2, h3⟩
      have := ih (check_hallucination p (generate p s))
        (tr ++ ["generate", "check_hallucination"])
      rw [h1, h2] at this
      omega
    · have h1 := check_retry_le p (generate p s)
      rw [generate_retry] at h1
      show (check_hallucination p (generate p s)).retry_count ≤
        max s.max_retries (s.retry_count + 1)
      omega

theorem decide_not_retry (s : RAGState)
    (h : ¬ decide_after_generation s = "retry") :
    s.generation ≠ none ∨ s.max_retries ≤ s.retry_count := by
  rw [decide_retry_iff] at h
  push_neg at h
  by_cases hg : s.generation = none
  · exact Or.inr (h hg)
  · exact Or.inl hg

theorem genLoop_answer_or_budget (p : Ports) :
    ∀ (fuel : Nat) (s : RAGState) (tr : List String),
      s.max_retries - s.retry_count < fuel →
      ((genLoop p fuel s tr).1.generation ≠ none ∨
       (genLoop p fuel s tr).1.max_retries ≤ (genLoop p fuel s tr).1.retry_count) := by
  intro fuel
  induction fuel with
  | zero => intro s tr h; omega
  | succ fuel ih =>
    intro s tr h
    rw [genLoop_succ]
    split
    · rename_i hd
      rcases loop_step_retry p s hd with ⟨h1, h2, h3⟩
      apply ih
      rw [h1, h2]
      omega
    · rename_i hd
      rcases decide_not_retry _ hd with hcase | hcase
      · exact Or.inl hcase
      · exact Or.inr hcase

theorem grade_flag_false_docs (p : Ports) (s : RAGState)
    (h : (grade_documents p s).web_search_needed = false) :
    (grade_documents p s).documents ≠ [] := by
  unfold grade_documents at h ⊢
  split at h
  · simp at h
  · rename_i hne
    rw [if_neg hne]
    simp only at h ⊢
    intro hnil
    rw [hnil] at h
    simp at h

theorem after_grading_not_web (s : RAGState)
    (h : ¬ decide_after_grading s = "web_search") :
    s.web_search_needed = false := by
  unfold decide_after_grading at h
  by_cases hf : s.web_search_needed
  · rw [if_pos hf] at h
    exact absurd rfl h
  · exact eq_false_of_ne_true hf

theorem runRAG_shape (p : Ports) (q : String) (c : Option Ctx) (m : Nat) :
    runRAG p q c m =
      (direct_answer p (route_question p (initState q c m)), ["route", "direct_answer"]) ∨
    ∃ s tr, runRAG p q c m = genLoop p (m + 1) s tr ∧
      s.max_retries = m ∧ s.retry_count = 0 ∧
      ("web_search" ∈ tr ∨ s.documents ≠ []) := by
  by_cases h1 : decide_route (route_question p (initState q c m)) = "direct"
  · left
    unfold runRAG
    rw [if_pos h1]
  · by_cases h2 : decide_route (route_question p (initState q c m)) = "web_search"
    · right
      refine ⟨web_search p (route_question p (initState q c m)), ["route", "web_search"],
        ?_, ?_, ?_, Or.inl (by simp)⟩
      · unfold runRAG
        rw [if_neg h1, if_pos h2]
      · rw [web_search_max]; rfl
      · rw [web_search_retry]; rfl
    · by_cases h3 : decide_after_grading
        (grade_documents p (retrieve p (route_question p (initState q c m)))) = "web_search"
      · right
        refine ⟨web_search p (grade_documents p (retrieve p (route_question p (initState q c m)))),
          ["route", "retrieve", "grade_documents", "web_search"], ?_, ?_, ?_, Or.inl (by simp)⟩
        · unfold runRAG
          rw [if_neg h1, if_neg h2, if_pos h3]
        · rw [web_search_max, grade_max]; rfl
        · rw [web_search_retry, grade_retry]; rfl
      · right
        refine ⟨grade_documents p (retrieve p (route_question p (initState q c m))),
          ["route", "retrieve", "grade_documents"], ?_, ?_, ?_, ?_⟩
        · unfold runRAG
          rw [if_neg h1, if_neg h2, if_neg h3]
        · rw [grade_max]; rfl
        · rw [grade_retry]; rfl
        · exact Or.inr (grade_flag_false_docs p _ (after_grading_not_web _ h3))

/-! Concrete ports used by counterexamples and witnesses. -/

/-- A web hit used in concrete runs. -/
def exampleHit : WebHit := { content := "web content", url := some "http://example.com" }

/-- Ports in which the router picks web search, the provider returns one
hit, and every groundedness check answers "no". -/
def failPorts : Ports :=
  { router := .obj (some (.str "web_search"))
    db := []
    gradeResp := fun _ => .obj (some (.str "yes"))
    webResult := some [exampleHit]
    genText := fun _ => "draft answer"
    groundResp := fun _ => .obj (some (.str "no"))
    directText := "hello" }

/-- Claim C1, counterexample: with max_retries = 1 and every groundedness
check answering "no", the run terminates with answer = null — the failed
check clears the generation and the exhausted budget ends the run without
regenerating, so the engine does terminate with a null answer, contrary to
the claim that it accepts the last generated answer. -/
theorem run_can_terminate_with_null_answer :
    (runRAG failPorts "q" none 1).1.generation = none ∧
    (runRAG failPorts "q" none 1).1.retry_count = 1 ∧
    (runRAG failPorts "q" none 1).1.max_retries = 1 := by
  refine ⟨?_, ?_, ?_⟩ <;> rfl

/-- Claim C1, amended: the terminal answer can be null, but only when the
retry budget is exhausted: in every run, either the terminal generation is
non-null, or the terminal retry count has reached max_retries (the null
answer arises exactly from a final failed groundedness check with no budget
left; the cleared answer is not restored). -/
theorem null_answer_only_on_exhausted_budget (p : Ports) (q : String)
    (c : Option Ctx) (m : Nat) :
    (runRAG p q c m).1.generation ≠ none ∨ m ≤ (runRAG p q c m).1.retry_count := by
  rcases runRAG_shape p q c m with h | ⟨s, tr, h, hmax, hretry, _⟩
  · left
    rw [h]
    exact Option.some_ne_none _
  · rw [h]
    have hfuel : s.max_retries - s.retry_count < m + 1 := by omega
    rcases genLoop_answer_or_budget p (m + 1) s tr hfuel with hc | hc
    · exact Or.inl hc
    · right
      have hm := (genLoop_preserved p (m + 1) s tr).1
      rw [hm, hmax] at hc
      exact hc

/-- Claim C2, counterexample: with max_retries = 0 a single failed
groundedness check still increments retry_count, so the terminal state has
retry_count = 1 > 0 = max_retries, violating the claimed bound
retry_count ≤ max_retries. -/
theorem retry_count_can_exceed_max_retries :
    (runRAG failPorts "q" none 0).1.retry_count = 1 ∧
    (runRAG failPorts "q" none 0).1.max_retries = 0 ∧
    ¬ ((runRAG failPorts "q" none 0).1.retry_count ≤
        (runRAG failPorts "q" none 0).1.max_retries) := by
  refine ⟨rfl, rfl, ?_⟩
  intro h
  have h1 : (runRAG failPorts "q" none 0).1.retry_count = 1 := rfl
  have h0 : (runRAG failPorts "q" none 0).1.max_retries = 0 := rfl
  omega

/-- Claim C2, amended: at termination 0 ≤ retry_count ≤ max max_retries 1
(the bound max_retries itself holds whenever max_retries ≥ 1; with
max_retries = 0 a single failed check yields retry_count = 1). Moreover
retry_count is never modified by the route, retrieve, grade, web-search,
generate and direct-answer nodes, and the verify node increases it by at
most one, so it is monotonically non-decreasing and incremented only inside
Verify. -/
theorem retry_count_bounded_and_only_verify_increments :
    (∀ (p : Ports) (q : String) (c : Option Ctx) (m : Nat),
      (runRAG p q c m).1.retry_count ≤ max m 1) ∧
    (∀ (p : Ports) (s : RAGState),
      (route_question p s).retry_count = s.retry_count ∧
      (retrieve p s).retry_count = s.retry_count ∧
      (grade_documents p s).retry_count = s.retry_count ∧
      (web_search p s).retry_count = s.retry_count ∧
      (generate p s).retry_count = s.retry_count ∧
      (direct_answer p s).retry_count = s.retry_count ∧
      s.retry_count ≤ (check_hallucination p s).retry_count ∧
      (check_hallucination p s).retry_count ≤ s.retry_count + 1) := by
  constructor
  · intro p q c m
    rcases runRAG_shape p q c m with h | ⟨s, tr, h, hmax, hretry, _⟩
    · rw [h]
      show (0 : Nat) ≤ max m 1
      omega
    · rw [h]
      have hb := genLoop_retry_bound p (m + 1) s tr
      rw [hmax, hretry] at hb
      omega
  · intro p s
    exact ⟨rfl, rfl, grade_retry p s, web_search_retry p s, rfl, rfl,
      check_retry_ge p s, check_retry_le p s⟩

/-- A reachable state in which grading has emptied the evidence and set the
web-fallback flag. -/
def flaggedState : RAGState :=
  { question := "q"
    context := none
    documents := []
    generation := none
    web_search_needed := true
    retry_count := 0
    max_retries := 3
    routing_decision := .str "vectorstore" }

/-- Ports in which the web-search provider raises an exception. -/
def webFailPorts : Ports :=
  { failPorts with webResult := none }

/-- Claim C3, counterexample: when the web-search provider fails, the node
returns the state unchanged, so a true needs_web_fallback flag survives the
Web-fallback node — it is not always cleared. -/
theorem web_fallback_flag_survives_failure :
    (web_search webFailPorts flaggedState).web_search_needed = true := rfl

/-- Claim C3, amended: after the Web-fallback node, needs_web_fallback is
false whenever the provider call succeeded; on provider failure the node
returns the state entirely unchanged, so the flag keeps its previous value. -/
theorem web_fallback_clears_flag_iff_success (p : Ports) (s : RAGState) :
    (∀ hits, p.webResult = some hits → (web_search p s).web_search_needed = false) ∧
    (p.webResult = none → web_search p s = s) := by
  constructor
  · intro hits h
    unfold web_search
    rw [h]
  · intro h
    unfold web_search
    rw [h]

/-- Witness for the amended claim C3 at concrete inputs: a successful
provider call clears the flag, and a failing one leaves the flagged state
untouched. -/
theorem web_fallback_clears_flag_iff_success_witness :
    (web_search failPorts flaggedState).web_search_needed = false ∧
    web_search webFailPorts flaggedState = flaggedState := by
  constructor
  · exact (web_fallback_clears_flag_iff_success failPorts flaggedState).1 [exampleHit] rfl
  · exact (web_fallback_clears_flag_iff_success webFailPorts flaggedState).2 rfl

/-- Ports in which the router classifies the question as answerable
directly. -/
def directPorts : Ports :=
  { failPorts with router := .obj (some (.str "direct")) }

/-- Claim C5: when the router decides route = direct, the run executes only
the Direct-answer node after routing: the trace is exactly
[route, direct_answer], evidence stays empty, retry_count stays 0, Verify
never executes, and the answer is set to the direct chat response. -/
theorem direct_route_terminates_immediately (p : Ports) (q : String)
    (c : Option Ctx) (m : Nat) (h : p.router = .obj (some (.str "direct"))) :
    (runRAG p q c m).1.documents = [] ∧
    (runRAG p q c m).1.retry_count = 0 ∧
    (runRAG p q c m).1.generation = some p.directText ∧
    (runRAG p q c m).2 = ["route", "direct_answer"] ∧
    (runRAG p q c m).1.routing_decision = .str "direct" := by
  have hroute : decide_route (route_question p (initState q c m)) = "direct" := by
    simp [decide_route, route_question, routeVal, h]
  unfold runRAG
  rw [if_pos hroute]
  simp [direct_answer, route_question, routeVal, h, initState]

/-- Witness for claim C5 at concrete inputs: a router verdict of "direct"
yields the two-node trace with empty evidence and zero retries. -/
theorem direct_route_terminates_immediately_witness :
    (runRAG directPorts "hi" none 3).1.documents = [] ∧
    (runRAG directPorts "hi" none 3).1.retry_count = 0 ∧
    (runRAG directPorts "hi" none 3).2 = ["route", "direct_answer"] := by
  have h := direct_route_terminates_immediately directPorts "hi" none 3 rfl
  exact ⟨h.1, h.2.1, h.2.2.2.1⟩

theorem grade_empty_flag (p : Ports) (s : RAGState)
    (h : (grade_documents p s).documents = []) :
    (grade_documents p s).web_search_needed = true := by
  by_cases hf : (grade_documents p s).web_search_needed = true
  · exact hf
  · exact absurd h (grade_flag_false_docs p s (eq_false_of_ne_true hf))

/-- Claim C4: if Grade judges zero documents relevant it sets
needs_web_fallback and leaves the evidence empty, the conditional edge then
selects the Web-fallback node (never Generate), every document the following
Web-fallback node produces is web-origin, and in no run does Generate
execute on empty evidence unless the Web-fallback node ran first. -/
theorem grade_empty_forces_web_fallback :
    (∀ (p : Ports) (s : RAGState), (grade_documents p s).documents = [] →
      ((grade_documents p s).web_search_needed = true ∧
       decide_after_grading (grade_documents p s) = "web_search" ∧
       ∀ d ∈ (web_search p (grade_documents p s)).documents,
         d.source = some "web_search")) ∧
    (∀ (p : Ports) (q : String) (c : Option Ctx) (m : Nat),
      "generate" ∈ (runRAG p q c m).2 → (runRAG p q c m).1.documents = [] →
      "web_search" ∈ (runRAG p q c m).2) := by
  constructor
  · intro p s hdocs
    have hflag := grade_empty_flag p s hdocs
    refine ⟨hflag, ?_, ?_⟩
    · unfold decide_after_grading
      rw [hflag]
      rfl
    · intro d hd
      unfold web_search at hd
      rcases hw : p.webResult with _ | hits
      · rw [hw] at hd
        rw [hdocs] at hd
        exact absurd hd (List.not_mem_nil d)
      · rw [hw] at hd
        simp only [hdocs, List.nil_append] at hd
        rcases List.mem_map.mp hd with ⟨hit, _, hdef⟩
        rw [← hdef]
        rfl
  · intro p q c m hgen hdocs
    rcases runRAG_shape p q c m with h | ⟨s, tr, h, _, _, hcase⟩
    · rw [h] at hgen
      simp at hgen
    · rcases hcase with hw | hne
      · rw [h]
        exact genLoop_trace_mono p (m + 1) s tr _ hw
      · exfalso
        rw [h] at hdocs
        rw [(genLoop_preserved p (m + 1) s tr).2.1] at hdocs
        exact hne hdocs

/-- Ports whose grader judges every document irrelevant while the router
says vectorstore and web search succeeds. -/
def gradeNoPorts : Ports :=
  { failPorts with
    router := .obj none
    gradeResp := fun _ => .obj (some (.str "no"))
    groundResp := fun _ => .malformed }

/-- A bare candidate document for grading examples. -/
def docX : Doc :=
  { content := "candidate", id := none, company := none, industry := none,
    similarity := none, url := none, source := none }

/-- A state holding one candidate document, about to be graded. -/
def stateWithDoc : RAGState :=
  { flaggedState with web_search_needed := false, documents := [docX] }

/-- Witness for claim C4 at concrete inputs: a grading pass that drops the
only candidate sets the flag and routes to web search, and a run whose
evidence is empty at Generate has the Web-fallback node in its trace. -/
theorem grade_empty_forces_web_fallback_witness :
    (grade_documents gradeNoPorts stateWithDoc).web_search_needed = true ∧
    decide_after_grading (grade_documents gradeNoPorts stateWithDoc) = "web_search" ∧
    "web_search" ∈ (runRAG webFailPorts "q" none 3).2 := by
  have h := grade_empty_forces_web_fallback
  have h1 := h.1 gradeNoPorts stateWithDoc (by decide)
  have h2 := h.2 webFailPorts "q" none 3 (by decide) (by decide)
  exact ⟨h1.1, h1.2.1, h2⟩

/-- Ports whose route classifier returns unparseable output. -/
def malformedPorts : Ports :=
  { failPorts with router := .malformed }

/-- Claim C6: when the route classifier response is not parseable as JSON,
Route stores the default label vectorstore, and the Route node never
modifies the document sequence for any classifier outcome. -/
theorem malformed_route_defaults_to_vectorstore :
    (∀ (p : Ports) (s : RAGState), p.router = .malformed →
      (route_question p s).routing_decision = .str "vectorstore") ∧
    (∀ (p : Ports) (s : RAGState), (route_question p s).documents = s.documents) := by
  constructor
  · intro p s h
    simp [route_question, routeVal, h]
  · intro p s
    rfl

/-- Witness for claim C6 at concrete inputs: unparseable router output
yields the vectorstore label and untouched documents. -/
theorem malformed_route_defaults_to_vectorstore_witness :
    (route_question malformedPorts stateWithDoc).routing_decision = .str "vectorstore" ∧
    (route_question malformedPorts stateWithDoc).documents = [docX] := by
  have h := malformed_route_defaults_to_vectorstore
  exact ⟨h.1 malformedPorts stateWithDoc rfl, h.2 malformedPorts stateWithDoc⟩

/-- Claim C7: grading keeps a subsequence of the candidates (so the kept
documents stay in original retrieval order), and every candidate whose
grader response is unparseable (fail open) or parses to relevant = "yes" is
included in the filtered evidence. -/
theorem grade_fail_open_keeps_order (p : Ports) (s : RAGState) :
    ((grade_documents p s).documents).Sublist s.documents ∧
    (∀ d, d ∈ s.documents →
      (p.gradeResp d = .malformed ∨ p.gradeResp d = .obj (some (.str "yes"))) →
      d ∈ (grade_documents p s).documents) := by
  unfold grade_documents
  by_cases he : s.documents.isEmpty
  · rw [if_pos he]
    refine ⟨List.nil_sublist _, ?_⟩
    intro d hd _
    rw [List.isEmpty_iff.mp he] at hd
    exact absurd hd (List.not_mem_nil d)
  · rw [if_neg he]
    refine ⟨List.filter_sublist _, ?_⟩
    intro d hd hresp
    refine List.mem_filter.mpr ⟨hd, ?_⟩
    rcases hresp with h | h <;> simp [gradeKeep, h]

/-- Grader responses used by the grading examples: one candidate gets
unparseable output, one gets "yes", one gets "no", one gets "Yes". -/
def gradeMixPorts : Ports :=
  { failPorts with
    gradeResp := fun d =>
      if d.content = "m" then .malformed
      else if d.content = "y" then .obj (some (.str "yes"))
      else if d.content = "cased" then .obj (some (.str "Yes"))
      else .obj (some (.str "no")) }

/-- Candidate whose grader response is unparseable. -/
def docM : Doc := { docX with content := "m" }

/-- Candidate graded exactly "yes". -/
def docY : Doc := { docX with content := "y" }

/-- Candidate graded "Yes" (wrong case). -/
def docCased : Doc := { docX with content := "cased" }

/-- Candidate graded "no". -/
def docN : Doc := { docX with content := "n" }

/-- State with the four graded candidates. -/
def stateMix : RAGState :=
  { flaggedState with
    web_search_needed := false
    documents := [docM, docY, docCased, docN] }

/-- Witness for claim C7 at concrete inputs: the unparseable-response
candidate and the "yes" candidate are both kept, and the kept list is a
subsequence of the original. -/
theorem grade_fail_open_keeps_order_witness :
    ((grade_documents gradeMixPorts stateMix).documents).Sublist stateMix.documents ∧
    docM ∈ (grade_documents gradeMixPorts stateMix).documents ∧
    docY ∈ (grade_documents gradeMixPorts stateMix).documents := by
  have h := grade_fail_open_keeps_order gradeMixPorts stateMix
  refine ⟨h.1, ?_, ?_⟩
  · exact h.2 docM (by decide) (Or.inl rfl)
  · exact h.2 docY (by decide) (Or.inr rfl)

/-- Claim C10: for a candidate whose grader response parses as JSON, the
document is kept exactly when the relevant field holds the exact string
"yes"; a missing key, a differently cased string such as "Yes", or any
other well-formed value drops the document (fail-open applies only to parse
failures). -/
theorem grade_parsed_keeps_iff_exact_yes (p : Ports) (s : RAGState)
    (d : Doc) (f : Option JsonVal) (hd : d ∈ s.documents)
    (hresp : p.gradeResp d = .obj f) :
    d ∈ (grade_documents p s).documents ↔ f = some (JsonVal.str "yes") := by
  have hne : ¬ s.documents.isEmpty := by
    intro he
    rw [List.isEmpty_iff.mp he] at hd
    exact absurd hd (List.not_mem_nil d)
  unfold grade_documents
  rw [if_neg hne]
  simp only
  constructor
  · intro hmem
    have hk := (List.mem_filter.mp hmem).2
    rw [hresp] at hk
    by_cases hf : f = some (JsonVal.str "yes")
    · exact hf
    · exfalso
      simp [gradeKeep, hf] at hk
  · intro hf
    refine List.mem_filter.mpr ⟨hd, ?_⟩
    rw [hresp]
    simp [gradeKeep, hf]

/-- Witness for claim C10 at concrete inputs: the candidate graded exactly
"yes" is kept and the candidate graded "Yes" is dropped. -/
theorem grade_parsed_keeps_iff_exact_yes_witness :
    docY ∈ (grade_documents gradeMixPorts stateMix).documents ∧
    docCased ∉ (grade_documents gradeMixPorts stateMix).documents := by
  constructor
  · exact (grade_parsed_keeps_iff_exact_yes gradeMixPorts stateMix docY
      (some (JsonVal.str "yes")) (by decide) rfl).mpr rfl
  · intro hmem
    have h := (grade_parsed_keeps_iff_exact_yes gradeMixPorts stateMix docCased
      (some (JsonVal.str "Yes")) (by decide) rfl).mp hmem
    simp at h

theorem invoke_route_eq (p : Ports) (q : String) (c : Option Ctx) (m : Nat) :
    (invoke p q c m).route = (runRAG p q c m).1.routing_decision := rfl

theorem runRAG_routing_retrieve_path (p : Ports) (q : String) (c : Option Ctx)
    (m : Nat) (hd : decide_route (route_question p (initState q c m)) = "retrieve") :
    (runRAG p q c m).1.routing_decision =
      (route_question p (initState q c m)).routing_decision := by
  have h1 : ¬ decide_route (route_question p (initState q c m)) = "direct" := by
    rw [hd]
    decide
  have h2 : ¬ decide_route (route_question p (initState q c m)) = "web_search" := by
    rw [hd]
    decide
  unfold runRAG
  rw [if_neg h1, if_neg h2]
  by_cases h3 : decide_after_grading
      (grade_documents p (retrieve p (route_question p (initState q c m)))) = "web_search"
  · rw [if_pos h3]
    rw [(genLoop_preserved p (m + 1) _ _).2.2, web_search_routing, grade_routing]
    rfl
  · rw [if_neg h3]
    rw [(genLoop_preserved p (m + 1) _ _).2.2, grade_routing]
    rfl

/-- Claim C9: a parsed router response with a missing route key defaults to
vectorstore and goes to the retrieve path; a parsed route label other than
"direct" and "web_search" also goes to the retrieve path while the raw
label is stored in routing_decision and returned verbatim as the route of
the run by RAGAgent.invoke. -/
theorem unrecognized_route_label_goes_to_retrieve :
    (∀ (p : Ports) (s : RAGState), p.router = .obj none →
      ((route_question p s).routing_decision = .str "vectorstore" ∧
       decide_route (route_question p s) = "retrieve")) ∧
    (∀ (p : Ports) (s : RAGState) (lbl : String),
      p.router = .obj (some (.str lbl)) → lbl ≠ "direct" → lbl ≠ "web_search" →
      ((route_question p s).routing_decision = .str lbl ∧
       decide_route (route_question p s) = "retrieve")) ∧
    (∀ (p : Ports) (q : String) (c : Option Ctx) (m : Nat) (lbl : String),
      p.router = .obj (some (.str lbl)) → lbl ≠ "direct" → lbl ≠ "web_search" →
      (invoke p q c m).route = .str lbl) := by
  have key : ∀ (p : Ports) (s : RAGState) (lbl : String),
      p.router = .obj (some (.str lbl)) → lbl ≠ "direct" → lbl ≠ "web_search" →
      ((route_question p s).routing_decision = .str lbl ∧
       decide_route (route_question p s) = "retrieve") := by
    intro p s lbl h hne1 hne2
    have hr : (route_question p s).routing_decision = .str lbl := by
      simp [route_question, routeVal, h]
    refine ⟨hr, ?_⟩
    have hA : ¬ (JsonVal.str lbl = JsonVal.str "direct") := by simp [hne1]
    have hB : ¬ (JsonVal.str lbl = JsonVal.str "web_search") := by simp [hne2]
    unfold decide_route
    rw [hr, if_neg hA, if_neg hB]
  refine ⟨?_, key, ?_⟩
  · intro p s h
    have hr : (route_question p s).routing_decision = .str "vectorstore" := by
      simp [route_question, routeVal, h]
    refine ⟨hr, ?_⟩
    unfold decide_route
    rw [hr]
    decide
  · intro p q c m lbl h hne1 hne2
    have hk := key p (initState q c m) lbl h hne1 hne2
    rw [invoke_route_eq, runRAG_routing_retrieve_path p q c m hk.2, hk.1]

/-- Ports whose router returns the unrecognized label "banana". -/
def bananaPorts : Ports :=
  { failPorts with router := .obj (some (.str "banana")), webResult := none }

/-- Witness for claim C9 at concrete inputs: the label "banana" is stored,
the retrieve edge is taken, and invoke reports route = "banana" verbatim. -/
theorem unrecognized_route_label_goes_to_retrieve_witness :
    (route_question bananaPorts flaggedState).routing_decision = .str "banana" ∧
    decide_route (route_question bananaPorts flaggedState) = "retrieve" ∧
    (invoke bananaPorts "q" none 3).route = .str "banana" := by
  have h := unrecognized_route_label_goes_to_retrieve
  have h2 := h.2.1 bananaPorts flaggedState "banana" rfl (by decide) (by decide)
  have h3 := h.2.2 bananaPorts "q" none 3 "banana" rfl (by decide) (by decide)
  exact ⟨h2.1, h2.2, h3⟩

/-- A case-studies row in the tech industry whose similarity to the query
is 1 (distance 0), well above the threshold. -/
def caseRowTech : CaseRow :=
  { id := "1", company_name := "Acme", industry := "tech", summary := "s",
    strategy_type := "st", starting_state := "ss", ending_state := "es",
    timeline := "t", key_actions := "ka", outcomes := "o",
    lessons_learned := "l", dist := 0 }

/-- Ports whose vector store holds the single tech row and whose router
response has no route key. -/
def dbPorts : Ports :=
  { failPorts with
    router := .obj none
    db := [caseRowTech]
    groundResp := fun _ => .malformed }

/-- Initial state whose user context contains the industry key with the
empty-string value. -/
def emptyIndustryState : RAGState := initState "q" (some { industry := some "" }) 3

/-- Initial state whose user context contains industry = "tech". -/
def techIndustryState : RAGState := initState "q" (some { industry := some "tech" }) 3

theorem similarity_search_mem_split {rows : List CaseRow} {k : Nat} {t : Rat}
    {f : Option String} {r : CaseRow} (hr : r ∈ similarity_search rows k t f) :
    r ∈ rows ∧ searchPred t f r = true := by
  unfold similarity_search at hr
  have h1 := List.mem_of_mem_take hr
  have h2 := (List.mem_insertionSort byDist).mp h1
  exact List.mem_filter.mp h2

/-- Claim C8, counterexample: with a user context that contains the industry
field with the empty-string value, `retrieve` applies no industry filter —
Python truthiness skips the filter — so the claimed "filter applied exactly
when the context contains an industry field" fails: the run returns the
tech-industry row even though an industry equality filter on "" would
return nothing. -/
theorem tech_row_passes_threshold :
    similarity_search dbPorts.db RAG_CONFIG_retrieval_k
      RAG_CONFIG_similarity_threshold none = [caseRowTech] := by
  unfold similarity_search
  rw [show dbPorts.db = [caseRowTech] from rfl]
  rw [List.filter_cons_of_pos, List.filter_nil]
  · rfl
  · simp only [searchPred, Bool.and_true, decide_eq_true_eq]
    show (7 : Rat)/10 < 1 - caseRowTech.dist
    rw [show caseRowTech.dist = 0 from rfl]
    norm_num

theorem tech_row_fails_empty_industry_filter :
    similarity_search dbPorts.db RAG_CONFIG_retrieval_k
      RAG_CONFIG_similarity_threshold (some "") = [] := by
  unfold similarity_search
  rw [show dbPorts.db = [caseRowTech] from rfl]
  rw [List.filter_cons_of_neg, List.filter_nil]
  · rfl
  · simp only [searchPred]
    rw [show (caseRowTech.industry == "") = false from rfl]
    simp

theorem empty_industry_field_skips_filter :
    emptyIndustryState.context = some { industry := some "" } ∧
    (retrieve dbPorts emptyIndustryState).documents.length = 1 ∧
    (similarity_search dbPorts.db RAG_CONFIG_retrieval_k
      RAG_CONFIG_similarity_threshold (some "")).length = 0 ∧
    (retrieve dbPorts emptyIndustryState).documents ≠
      (similarity_search dbPorts.db RAG_CONFIG_retrieval_k
        RAG_CONFIG_similarity_threshold (some "")).map caseDoc := by
  have hdocs : (retrieve dbPorts emptyIndustryState).documents = [caseDoc caseRowTech] := by
    have hctx : ctxIndustryFilter emptyIndustryState.context = none := rfl
    simp [retrieve, hctx, tech_row_passes_threshold]
  refine ⟨rfl, ?_, ?_, ?_⟩
  · rw [hdocs]
    rfl
  · rw [tech_row_fails_empty_industry_filter]
    rfl
  · rw [hdocs, tech_row_fails_empty_industry_filter]
    simp

/-- Claim C8, amended: the similarity search returns only rows whose
similarity 1 - dist strictly exceeds the threshold (0.7 at the call site),
ordered ascending by vector distance and truncated to k = 5 rows; the
industry equality filter restricts results to the filtered industry and is
applied exactly when the user context holds a non-empty industry value
(Python truthiness: a missing context, missing key or empty-string industry
all disable the filter); and an empty result set does not fail the run — it
reaches Grade, which then flags the web fallback. -/
theorem retrieve_similarity_search_contract :
    (∀ (rows : List CaseRow) (k : Nat) (t : Rat) (f : Option String) (r : CaseRow),
      r ∈ similarity_search rows k t f → t < 1 - r.dist) ∧
    (∀ (rows : List CaseRow) (k : Nat) (t : Rat) (f : Option String),
      (similarity_search rows k t f).length ≤ k) ∧
    (∀ (rows : List CaseRow) (k : Nat) (t : Rat) (f : Option String),
      List.Pairwise byDist (similarity_search rows k t f)) ∧
    (∀ (rows : List CaseRow) (k : Nat) (t : Rat) (ind : String) (r : CaseRow),
      r ∈ similarity_search rows k t (some ind) → r.industry = ind) ∧
    (∀ (p : Ports) (s : RAGState) (c : Ctx) (ind : String),
      s.context = some c → c.industry = some ind → ind ≠ "" →
      (retrieve p s).documents =
        (similarity_search p.db RAG_CONFIG_retrieval_k
          RAG_CONFIG_similarity_threshold (some ind)).map caseDoc) ∧
    (∀ (p : Ports) (s : RAGState), ctxIndustryFilter s.context = none →
      (retrieve p s).documents =
        (similarity_search p.db RAG_CONFIG_retrieval_k
          RAG_CONFIG_similarity_threshold none).map caseDoc) ∧
    (∀ (p : Ports) (s : RAGState),
      similarity_search p.db RAG_CONFIG_retrieval_k
        RAG_CONFIG_similarity_threshold (ctxIndustryFilter s.context) = [] →
      ((grade_documents p (retrieve p s)).web_search_needed = true ∧
       (grade_documents p (retrieve p s)).documents = [])) := by
  refine ⟨?_, ?_, ?_, ?_, ?_, ?_, ?_⟩
  · intro rows k t f r hr
    have h := (similarity_search_mem_split hr).2
    unfold searchPred at h
    exact of_decide_eq_true (Bool.and_eq_true_iff.mp h).1
  · intro rows k t f
    unfold similarity_search
    exact List.length_take_le k _
  · intro rows k t f
    unfold similarity_search
    exact List.Pairwise.sublist (List.take_sublist k _) (List.sorted_insertionSort byDist _)
  · intro rows k t ind r hr
    have h := (similarity_search_mem_split hr).2
    unfold searchPred at h
    exact eq_of_beq (Bool.and_eq_true_iff.mp h).2
  · intro p s c ind hc hi hne
    have hf : ctxIndustryFilter s.context = some ind := by
      rw [hc]
      simp [ctxIndustryFilter, hi, hne]
    simp [retrieve, hf]
  · intro p s hf
    simp [retrieve, hf]
  · intro p s hempty
    have hd : (retrieve p s).documents = [] := by
      simp [retrieve, hempty]
    refine ⟨?_, ?_⟩ <;> simp [grade_documents, hd]

/-- Witness for the amended claim C8 at concrete inputs: a non-empty
industry value in the context produces the industry-filtered search results,
and an empty search result propagates to Grade, which raises the
web-fallback flag. -/
theorem retrieve_similarity_search_contract_witness :
    (retrieve dbPorts techIndustryState).documents =
      (similarity_search dbPorts.db RAG_CONFIG_retrieval_k
        RAG_CONFIG_similarity_threshold (some "tech")).map caseDoc ∧
    (grade_documents gradeNoPorts (retrieve gradeNoPorts flaggedState)).web_search_needed
      = true := by
  have h := retrieve_similarity_search_contract
  exact ⟨h.2.2.2.2.1 dbPorts techIndustryState { industry := some "tech" } "tech"
      rfl rfl (by decide),
    (h.2.2.2.2.2.2 gradeNoPorts flaggedState (by decide)).1⟩

end FutureTree
